import Mathlib

/-!
Verification of the session-coordination state machine of the LinguaLearn
tutoring interface (src/components/call-interface.tsx together with the
ai/flows voice-call modules).

The component is a React function component; its state lives in useState
hooks and is mutated by event handlers (form submission, tab selection,
end-call button, mute toggle, the speech-recognition callbacks) and by two
useEffect blocks (the teacher-change reset effect and the text-to-speech
effect).  We embed it shallowly: the hook state is a record `State`, each
handler is a pure function on `State`, and a micro-step `step` applies a
handler for an external `Event` and then flushes the text-to-speech effect
exactly when its dependency tuple `[explanation, callState, isMuted,
isListening, selectedTeacher]` changed, mirroring the React effect model.
The remote gateway (ahmedVoiceCall / saraVoiceCall) is the external
boundary: a submission event carries the gateway outcome
(`Except Unit VoiceCallOutput`), and `step` additionally reports the input
the gateway was invoked with (`none` when it was not invoked), so that
claims about what the gateway receives are statable.

Speech playback is modelled by the flag `playbackActive`: true after
`synth.speak` ran and before any `synth.cancel` (or natural end of the
utterance, the `playbackEnded` event).  The effect's guard uses JavaScript
truthiness (`!explanation`), so an empty-string explanation suppresses
playback like a null one.  When `synth.getVoices()` is still empty the
effect does not speak at once: it assigns its loadVoices closure to
`synth.onvoiceschanged`, which fires later (the `voicesChanged` event) and
then calls `synth.speak` unconditionally; the assignment is never cleared
by any cleanup.  This deferred path is modelled by the `voicesLoaded` and
`pendingUtterance` fields.  Voice choice itself (male/female matching)
touches no hook state and has no counterpart in `State`.
-/

/-- The two tutor personas (type `Teacher` in call-interface.tsx). -/
inductive Teacher where
  | Ahmed
  | Sara
deriving DecidableEq, Repr

/-- The call-state union type: "idle" | "calling" | "active" | "error". -/
inductive CallState where
  | idle
  | calling
  | active
  | error
deriving DecidableEq, Repr

/-- Speech-recognition language tags: 'en-US' | 'ar-SA'. -/
inductive SpeechLanguage where
  | enUS
  | arSA
deriving DecidableEq, Repr

/-- Speaker tag of a conversation entry: 'User' | 'Ahmed' | 'Sara'. -/
inductive Speaker where
  | User
  | Ahmed
  | Sara
deriving DecidableEq, Repr

/-- ConversationEntry of call-interface.tsx: { speaker, message }. -/
structure ConversationEntry where
  speaker : Speaker
  message : String
deriving DecidableEq, Repr

/-- Data of the Ahmed form (ahmedSchema): one field, englishGrammarConcept. -/
structure AhmedFormData where
  englishGrammarConcept : String
deriving DecidableEq, Repr

/-- Data of the Sara form (saraSchema): englishGrammarConcept and
userLanguageProficiency. -/
structure SaraFormData where
  englishGrammarConcept : String
  userLanguageProficiency : String
deriving DecidableEq, Repr

/-- Output schema shared by both voice-call flows: { explanation : string }.
AhmedVoiceCallOutputSchema and SaraVoiceCallOutputSchema declare the same
single field. -/
structure VoiceCallOutput where
  explanation : String
deriving DecidableEq, Repr

/-- AhmedVoiceCallInput (ahmed-voice-call.ts): the grammar concept together
with the optional conversation history; call-interface.tsx always passes the
history explicitly. -/
structure AhmedVoiceCallInput where
  englishGrammarConcept : String
  conversationHistory : List ConversationEntry
deriving DecidableEq, Repr

/-- SaraVoiceCallInput (sara-voice-call.ts): concept, proficiency and the
optional conversation history. -/
structure SaraVoiceCallInput where
  englishGrammarConcept : String
  userLanguageProficiency : String
  conversationHistory : List ConversationEntry
deriving DecidableEq, Repr

/-- Which gateway function a submission invoked, and with what input. -/
inductive GatewayCall where
  | ahmed (input : AhmedVoiceCallInput)
  | sara (input : SaraVoiceCallInput)
deriving DecidableEq, Repr

/-- MAX_HISTORY_PAIRS = 10 (10 pairs = 20 entries). -/
def MAX_HISTORY_PAIRS : Nat := 10

/-- JavaScript Array.prototype.slice with a single negative argument -n:
the last n elements (the whole list when it is shorter than n). -/
def sliceLast (n : Nat) (l : List α) : List α :=
  l.drop (l.length - n)

/-- The hook state of the CallInterface component.  `playbackActive` stands
for the browser speech-synthesis engine currently having an utterance of
this component queued or speaking (set by synth.speak, cleared by
synth.cancel and by the utterance ending).  `voicesLoaded` stands for
synth.getVoices() being non-empty, and `pendingUtterance` for the
synth.onvoiceschanged slot: the text of the loadVoices closure the effect
registered there when the voice list was still empty (the slot is a
process-wide assignment that no cleanup ever clears). -/
structure State where
  selectedTeacher : Teacher
  callState : CallState
  explanation : Option String
  isMuted : Bool
  isListening : Bool
  listeningLanguage : Option SpeechLanguage
  conversationHistory : List ConversationEntry
  ahmedForm : AhmedFormData
  saraForm : SaraFormData
  playbackActive : Bool
  voicesLoaded : Bool
  pendingUtterance : Option String
deriving DecidableEq, Repr

/-- Initial hook state: teacher Ahmed, callState "idle", no explanation,
unmuted, not listening, empty history, forms at their defaultValues. -/
def initState : State :=
  { selectedTeacher := Teacher.Ahmed
    callState := CallState.idle
    explanation := none
    isMuted := false
    isListening := false
    listeningLanguage := none
    conversationHistory := []
    ahmedForm := { englishGrammarConcept := "" }
    saraForm := { englishGrammarConcept := "", userLanguageProficiency := "" }
    playbackActive := false
    voicesLoaded := false
    pendingUtterance := none }

/-- ahmedSchema: englishGrammarConcept must have at least 3 characters. -/
def ahmedValidData (d : AhmedFormData) : Bool :=
  3 ≤ d.englishGrammarConcept.length

/-- saraSchema: concept at least 3 characters and proficiency at least 2. -/
def saraValidData (d : SaraFormData) : Bool :=
  3 ≤ d.englishGrammarConcept.length && 2 ≤ d.userLanguageProficiency.length

/-- Validity of the currently displayed form, as react-hook-form's
handleSubmit checks it through the zodResolver before calling the
submit handler. -/
def currentFormValid (s : State) : Bool :=
  match s.selectedTeacher with
  | Teacher.Ahmed => ahmedValidData s.ahmedForm
  | Teacher.Sara => saraValidData s.saraForm

/-- commonSubmitLogic: cancel synthesis, abort recognition when listening
(clearing isListening and listeningLanguage), set callState "calling" and
clear the explanation. -/
def commonSubmitLogic (s : State) : State :=
  let s1 := { s with playbackActive := false }
  let s2 :=
    if s1.isListening then
      { s1 with isListening := false, listeningLanguage := none }
    else s1
  { s2 with callState := CallState.calling, explanation := none }

/-- The part of handleAhmedSubmit after the awaited gateway call resolves:
on success set the explanation, go "active" and append the user/AI pair
trimmed with slice(-(MAX_HISTORY_PAIRS * 2)); on failure go "error". -/
def finishAhmedSubmit (mid : State) (data : AhmedFormData)
    (result : Except Unit VoiceCallOutput) : State :=
  match result with
  | Except.ok r =>
      let s2 := { mid with explanation := some r.explanation,
                           callState := CallState.active }
      let userEntry : ConversationEntry :=
        { speaker := Speaker.User, message := data.englishGrammarConcept }
      let aiEntry : ConversationEntry :=
        { speaker := Speaker.Ahmed, message := r.explanation }
      { s2 with conversationHistory :=
          (sliceLast (MAX_HISTORY_PAIRS * 2)
            (s2.conversationHistory ++ [userEntry, aiEntry])) }
  | Except.error _ => { mid with callState := CallState.error }

/-- handleAhmedSubmit: commonSubmitLogic, then the gateway call and its
resolution. -/
def handleAhmedSubmit (s : State) (data : AhmedFormData)
    (result : Except Unit VoiceCallOutput) : State :=
  finishAhmedSubmit (commonSubmitLogic s) data result

/-- The part of handleSaraSubmit after the awaited gateway call resolves. -/
def finishSaraSubmit (mid : State) (data : SaraFormData)
    (result : Except Unit VoiceCallOutput) : State :=
  match result with
  | Except.ok r =>
      let s2 := { mid with explanation := some r.explanation,
                           callState := CallState.active }
      let userEntry : ConversationEntry :=
        { speaker := Speaker.User, message := data.englishGrammarConcept }
      let aiEntry : ConversationEntry :=
        { speaker := Speaker.Sara, message := r.explanation }
      { s2 with conversationHistory :=
          (sliceLast (MAX_HISTORY_PAIRS * 2)
            (s2.conversationHistory ++ [userEntry, aiEntry])) }
  | Except.error _ => { mid with callState := CallState.error }

/-- handleSaraSubmit: commonSubmitLogic, then the gateway call and its
resolution. -/
def handleSaraSubmit (s : State) (data : SaraFormData)
    (result : Except Unit VoiceCallOutput) : State :=
  finishSaraSubmit (commonSubmitLogic s) data result

/-- The AhmedVoiceCallInput built in handleAhmedSubmit: the submitted form
data spread together with the conversationHistory state as captured at
submission time. -/
def ahmedGatewayInput (s : State) : AhmedVoiceCallInput :=
  { englishGrammarConcept := s.ahmedForm.englishGrammarConcept
    conversationHistory := s.conversationHistory }

/-- The SaraVoiceCallInput built in handleSaraSubmit. -/
def saraGatewayInput (s : State) : SaraVoiceCallInput :=
  { englishGrammarConcept := s.saraForm.englishGrammarConcept
    userLanguageProficiency := s.saraForm.userLanguageProficiency
    conversationHistory := s.conversationHistory }

/-- Form submission as dispatched by handleSubmit(currentTeacherInfo.onSubmit):
the zodResolver validates the current form; on failure the handler is never
called (the form only records field errors), on success the teacher's submit
handler runs and the gateway is invoked with the built input.  The second
component reports the gateway invocation. -/
def submitStep (s : State) (result : Except Unit VoiceCallOutput) :
    State × Option GatewayCall :=
  match s.selectedTeacher with
  | Teacher.Ahmed =>
      if ahmedValidData s.ahmedForm then
        (handleAhmedSubmit s s.ahmedForm result,
         some (GatewayCall.ahmed (ahmedGatewayInput s)))
      else (s, none)
  | Teacher.Sara =>
      if saraValidData s.saraForm then
        (handleSaraSubmit s s.saraForm result,
         some (GatewayCall.sara (saraGatewayInput s)))
      else (s, none)

/-- The teacher-change useEffect body: cancel synthesis, abort recognition
when listening, reset callState to "idle", clear explanation and history,
reset both forms to their default values and clear their errors.  Radix
Tabs fires onValueChange only when the value actually changes, and the
effect itself only re-runs when selectedTeacher changed, hence the guard. -/
def selectTeacherStep (s : State) (t : Teacher) : State :=
  if t = s.selectedTeacher then s
  else
    let s1 := { s with selectedTeacher := t, playbackActive := false }
    let s2 :=
      if s1.isListening then
        { s1 with isListening := false, listeningLanguage := none }
      else s1
    { s2 with callState := CallState.idle
              explanation := none
              conversationHistory := []
              ahmedForm := { englishGrammarConcept := "" }
              saraForm := { englishGrammarConcept := ""
                            userLanguageProficiency := "" } }

/-- endCall: cancel synthesis, abort recognition when listening, reset to
"idle", clear explanation and history, and reset the selected teacher's
form to its defaultValues (react-hook-form reset with no argument). -/
def endCallStep (s : State) : State :=
  let s1 := { s with playbackActive := false }
  let s2 :=
    if s1.isListening then
      { s1 with isListening := false, listeningLanguage := none }
    else s1
  let s3 := { s2 with callState := CallState.idle
                      explanation := none
                      conversationHistory := [] }
  match s3.selectedTeacher with
  | Teacher.Ahmed => { s3 with ahmedForm := { englishGrammarConcept := "" } }
  | Teacher.Sara =>
      { s3 with saraForm := { englishGrammarConcept := ""
                              userLanguageProficiency := "" } }

/-- toggleMute: flip isMuted; when the new value is muted, cancel any
active synthesis inside the updater. -/
def toggleMuteStep (s : State) : State :=
  let newMutedState := !s.isMuted
  let s1 := if newMutedState then { s with playbackActive := false } else s
  { s1 with isMuted := newMutedState }

/-- toggleListening(language): when already listening, recognition.stop()
leads to the onend callback clearing isListening and listeningLanguage;
otherwise the language is set, start() is issued and the onstart callback
sets isListening and cancels any speaking synthesis. -/
def toggleListeningStep (s : State) (lang : SpeechLanguage) : State :=
  if s.isListening then
    { s with isListening := false, listeningLanguage := none }
  else
    { s with listeningLanguage := some lang
             isListening := true
             playbackActive := false }

/-- recognition.onresult: write the transcript into the current form's
englishGrammarConcept field. -/
def recResultStep (s : State) (transcript : String) : State :=
  match s.selectedTeacher with
  | Teacher.Ahmed =>
      { s with ahmedForm :=
          { s.ahmedForm with englishGrammarConcept := transcript } }
  | Teacher.Sara =>
      { s with saraForm :=
          { s.saraForm with englishGrammarConcept := transcript } }

/-- recognition.onend (also reached after onresult, since continuous is
false): clear isListening and listeningLanguage. -/
def recEndStep (s : State) : State :=
  { s with isListening := false, listeningLanguage := none }

/-- recognition.onerror: surface a toast and clear isListening and
listeningLanguage, exactly the state effect of onend. -/
def recErrorStep (s : State) : State :=
  { s with isListening := false, listeningLanguage := none }

/-- Typing into the concept textarea registered on the current form. -/
def typeConceptStep (s : State) (text : String) : State :=
  match s.selectedTeacher with
  | Teacher.Ahmed =>
      { s with ahmedForm :=
          { s.ahmedForm with englishGrammarConcept := text } }
  | Teacher.Sara =>
      { s with saraForm :=
          { s.saraForm with englishGrammarConcept := text } }

/-- Typing into the proficiency input, rendered only for Sara. -/
def typeProficiencyStep (s : State) (text : String) : State :=
  match s.selectedTeacher with
  | Teacher.Ahmed => s
  | Teacher.Sara =>
      { s with saraForm :=
          { s.saraForm with userLanguageProficiency := text } }

/-- The utterance finished playing on its own; the onend handler of the
utterance is empty, so only the engine-side activity flag drops. -/
def playbackEndedStep (s : State) : State :=
  { s with playbackActive := false }

/-- JavaScript truthiness of the explanation state (string | null): null
and the empty string are both falsy, so the guard's !explanation treats
explanation = "" like an absent explanation. -/
def truthyExplanation : Option String → Bool
  | none => false
  | some e => !(e == "")

/-- The browser finished loading its voice list (the voiceschanged event):
getVoices() becomes non-empty and any loadVoices closure assigned to
synth.onvoiceschanged runs, calling synth.speak(utterance) unconditionally
— without re-checking isListening, isMuted or callState — and the
assignment itself stays in place. -/
def voicesChangedStep (s : State) : State :=
  let s1 := { s with voicesLoaded := true }
  match s1.pendingUtterance with
  | some _ => { s1 with playbackActive := true }
  | none => s1

/-- Condition under which the text-to-speech effect proceeds past its
early-return guard (callState !== 'active' || !explanation || isMuted
|| isListening). -/
def ttsCondition (s : State) : Bool :=
  decide (s.callState = CallState.active) && truthyExplanation s.explanation
    && !s.isMuted && !s.isListening

/-- The text-to-speech useEffect body: always synth.cancel() first; when
the guard allows speaking, either speak at once (getVoices() non-empty,
the loadVoices() call) or assign loadVoices to synth.onvoiceschanged for
the utterance to be spoken when the voices load.  The guard ensures the
explanation is a non-empty string, so the deferred slot records exactly
that explanation. -/
def ttsEffect (s : State) : State :=
  if ttsCondition s then
    if s.voicesLoaded then { s with playbackActive := true }
    else { s with playbackActive := false, pendingUtterance := s.explanation }
  else { s with playbackActive := false }

/-- Dependency tuple of the text-to-speech effect:
[explanation, callState, isMuted, isListening, selectedTeacher]. -/
def ttsDeps (s : State) :
    Option String × CallState × Bool × Bool × Teacher :=
  (s.explanation, s.callState, s.isMuted, s.isListening, s.selectedTeacher)

/-- React effect flush after a handler ran: the text-to-speech effect
re-runs exactly when its dependency tuple changed. -/
def flush (old new : State) : State :=
  if ttsDeps new = ttsDeps old then new else ttsEffect new

/-- External events driving the component. -/
inductive Event where
  | submit (result : Except Unit VoiceCallOutput)
  | selectTeacher (t : Teacher)
  | endCall
  | toggleMute
  | toggleListening (lang : SpeechLanguage)
  | recResult (transcript : String)
  | recEnd
  | recError
  | typeConcept (text : String)
  | typeProficiency (text : String)
  | playbackEnded
  | voicesChanged

/-- The handler an event runs, before the effect flush; the second
component is the gateway invocation when the event caused one. -/
def rawStep (s : State) (e : Event) : State × Option GatewayCall :=
  match e with
  | Event.submit r => submitStep s r
  | Event.selectTeacher t => (selectTeacherStep s t, none)
  | Event.endCall => (endCallStep s, none)
  | Event.toggleMute => (toggleMuteStep s, none)
  | Event.toggleListening lang => (toggleListeningStep s lang, none)
  | Event.recResult tr => (recResultStep s tr, none)
  | Event.recEnd => (recEndStep s, none)
  | Event.recError => (recErrorStep s, none)
  | Event.typeConcept t => (typeConceptStep s t, none)
  | Event.typeProficiency t => (typeProficiencyStep s t, none)
  | Event.playbackEnded => (playbackEndedStep s, none)
  | Event.voicesChanged => (voicesChangedStep s, none)

/-- One micro-step: run the handler, then flush the text-to-speech effect. -/
def step (s : State) (e : Event) : State × Option GatewayCall :=
  let p := rawStep s e
  (flush s p.1, p.2)

/-- The state after an event. -/
def stepState (s : State) (e : Event) : State :=
  (step s e).1

/-- The states reachable from the initial render. -/
inductive Reachable : State → Prop where
  | init : Reachable initState
  | next : ∀ (s : State) (e : Event), Reachable s → Reachable (stepState s e)

/-! ## Field-preservation lemmas for the effect flush -/

@[simp] theorem ttsEffect_selectedTeacher (s : State) :
    (ttsEffect s).selectedTeacher = s.selectedTeacher := by
  simp only [ttsEffect]
  try rfl
  repeat' split
  all_goals simp_all

@[simp] theorem ttsEffect_callState (s : State) :
    (ttsEffect s).callState = s.callState := by
  simp only [ttsEffect]
  try rfl
  repeat' split
  all_goals simp_all

@[simp] theorem ttsEffect_explanation (s : State) :
    (ttsEffect s).explanation = s.explanation := by
  simp only [ttsEffect]
  try rfl
  repeat' split
  all_goals simp_all

@[simp] theorem ttsEffect_isMuted (s : State) :
    (ttsEffect s).isMuted = s.isMuted := by
  simp only [ttsEffect]
  try rfl
  repeat' split
  all_goals simp_all

@[simp] theorem ttsEffect_isListening (s : State) :
    (ttsEffect s).isListening = s.isListening := by
  simp only [ttsEffect]
  try rfl
  repeat' split
  all_goals simp_all

@[simp] theorem ttsEffect_listeningLanguage (s : State) :
    (ttsEffect s).listeningLanguage = s.listeningLanguage := by
  simp only [ttsEffect]
  try rfl
  repeat' split
  all_goals simp_all

@[simp] theorem ttsEffect_conversationHistory (s : State) :
    (ttsEffect s).conversationHistory = s.conversationHistory := by
  simp only [ttsEffect]
  try rfl
  repeat' split
  all_goals simp_all

@[simp] theorem ttsEffect_ahmedForm (s : State) :
    (ttsEffect s).ahmedForm = s.ahmedForm := by
  simp only [ttsEffect]
  try rfl
  repeat' split
  all_goals simp_all

@[simp] theorem ttsEffect_saraForm (s : State) :
    (ttsEffect s).saraForm = s.saraForm := by
  simp only [ttsEffect]
  try rfl
  repeat' split
  all_goals simp_all

@[simp] theorem ttsEffect_voicesLoaded (s : State) :
    (ttsEffect s).voicesLoaded = s.voicesLoaded := by
  simp only [ttsEffect]
  try rfl
  repeat' split
  all_goals simp_all

@[simp] theorem ttsEffect_pendingUtterance (s : State) :
    (ttsEffect s).pendingUtterance =
      (if ttsCondition s = true ∧ s.voicesLoaded = false then s.explanation
       else s.pendingUtterance) := by
  simp only [ttsEffect]
  repeat' split
  all_goals simp_all

@[simp] theorem flush_voicesLoaded (a b : State) :
    (flush a b).voicesLoaded = b.voicesLoaded := by
  simp only [flush]; split <;> simp

@[simp] theorem flush_selectedTeacher (a b : State) :
    (flush a b).selectedTeacher = b.selectedTeacher := by
  simp only [flush]; split <;> simp

@[simp] theorem flush_callState (a b : State) :
    (flush a b).callState = b.callState := by
  simp only [flush]; split <;> simp

@[simp] theorem flush_explanation (a b : State) :
    (flush a b).explanation = b.explanation := by
  simp only [flush]; split <;> simp

@[simp] theorem flush_isMuted (a b : State) :
    (flush a b).isMuted = b.isMuted := by
  simp only [flush]; split <;> simp

@[simp] theorem flush_isListening (a b : State) :
    (flush a b).isListening = b.isListening := by
  simp only [flush]; split <;> simp

@[simp] theorem flush_listeningLanguage (a b : State) :
    (flush a b).listeningLanguage = b.listeningLanguage := by
  simp only [flush]; split <;> simp

@[simp] theorem flush_conversationHistory (a b : State) :
    (flush a b).conversationHistory = b.conversationHistory := by
  simp only [flush]; split <;> simp

@[simp] theorem flush_ahmedForm (a b : State) :
    (flush a b).ahmedForm = b.ahmedForm := by
  simp only [flush]; split <;> simp

@[simp] theorem flush_saraForm (a b : State) :
    (flush a b).saraForm = b.saraForm := by
  simp only [flush]; split <;> simp

/-! ## Field lemmas for commonSubmitLogic and the submit resolutions -/

@[simp] theorem commonSubmitLogic_conversationHistory (s : State) :
    (commonSubmitLogic s).conversationHistory = s.conversationHistory := by
  simp only [commonSubmitLogic]
  try rfl
  repeat' split
  all_goals simp_all

@[simp] theorem commonSubmitLogic_callState (s : State) :
    (commonSubmitLogic s).callState = CallState.calling := rfl

@[simp] theorem commonSubmitLogic_isListening (s : State) :
    (commonSubmitLogic s).isListening = false := by
  simp only [commonSubmitLogic]
  try rfl
  repeat' split
  all_goals simp_all

@[simp] theorem commonSubmitLogic_isMuted (s : State) :
    (commonSubmitLogic s).isMuted = s.isMuted := by
  simp only [commonSubmitLogic]
  try rfl
  repeat' split
  all_goals simp_all

@[simp] theorem commonSubmitLogic_selectedTeacher (s : State) :
    (commonSubmitLogic s).selectedTeacher = s.selectedTeacher := by
  simp only [commonSubmitLogic]
  try rfl
  repeat' split
  all_goals simp_all

@[simp] theorem commonSubmitLogic_ahmedForm (s : State) :
    (commonSubmitLogic s).ahmedForm = s.ahmedForm := by
  simp only [commonSubmitLogic]
  try rfl
  repeat' split
  all_goals simp_all

@[simp] theorem commonSubmitLogic_saraForm (s : State) :
    (commonSubmitLogic s).saraForm = s.saraForm := by
  simp only [commonSubmitLogic]
  try rfl
  repeat' split
  all_goals simp_all

@[simp] theorem finishAhmedSubmit_isListening (mid : State)
    (d : AhmedFormData) (r : Except Unit VoiceCallOutput) :
    (finishAhmedSubmit mid d r).isListening = mid.isListening := by
  cases r <;> rfl

@[simp] theorem finishAhmedSubmit_isMuted (mid : State)
    (d : AhmedFormData) (r : Except Unit VoiceCallOutput) :
    (finishAhmedSubmit mid d r).isMuted = mid.isMuted := by
  cases r <;> rfl

@[simp] theorem finishAhmedSubmit_playbackActive (mid : State)
    (d : AhmedFormData) (r : Except Unit VoiceCallOutput) :
    (finishAhmedSubmit mid d r).playbackActive = mid.playbackActive := by
  cases r <;> rfl

@[simp] theorem finishSaraSubmit_isListening (mid : State)
    (d : SaraFormData) (r : Except Unit VoiceCallOutput) :
    (finishSaraSubmit mid d r).isListening = mid.isListening := by
  cases r <;> rfl

@[simp] theorem finishSaraSubmit_isMuted (mid : State)
    (d : SaraFormData) (r : Except Unit VoiceCallOutput) :
    (finishSaraSubmit mid d r).isMuted = mid.isMuted := by
  cases r <;> rfl

@[simp] theorem finishSaraSubmit_playbackActive (mid : State)
    (d : SaraFormData) (r : Except Unit VoiceCallOutput) :
    (finishSaraSubmit mid d r).playbackActive = mid.playbackActive := by
  cases r <;> rfl

@[simp] theorem length_sliceLast (n : Nat) (l : List α) :
    (sliceLast n l).length = l.length - (l.length - n) := by
  simp [sliceLast]

@[simp] theorem finishAhmedSubmit_conversationHistory_ok (mid : State)
    (d : AhmedFormData) (r : VoiceCallOutput) :
    (finishAhmedSubmit mid d (Except.ok r)).conversationHistory =
      sliceLast (MAX_HISTORY_PAIRS * 2) (mid.conversationHistory ++
        [{ speaker := Speaker.User, message := d.englishGrammarConcept },
         { speaker := Speaker.Ahmed, message := r.explanation }]) := rfl

@[simp] theorem finishAhmedSubmit_conversationHistory_error (mid : State)
    (d : AhmedFormData) (u : Unit) :
    (finishAhmedSubmit mid d (Except.error u)).conversationHistory =
      mid.conversationHistory := rfl

@[simp] theorem finishSaraSubmit_conversationHistory_ok (mid : State)
    (d : SaraFormData) (r : VoiceCallOutput) :
    (finishSaraSubmit mid d (Except.ok r)).conversationHistory =
      sliceLast (MAX_HISTORY_PAIRS * 2) (mid.conversationHistory ++
        [{ speaker := Speaker.User, message := d.englishGrammarConcept },
         { speaker := Speaker.Sara, message := r.explanation }]) := rfl

@[simp] theorem finishSaraSubmit_conversationHistory_error (mid : State)
    (d : SaraFormData) (u : Unit) :
    (finishSaraSubmit mid d (Except.error u)).conversationHistory =
      mid.conversationHistory := rfl

@[simp] theorem selectTeacherStep_conversationHistory (s : State) (t : Teacher) :
    (selectTeacherStep s t).conversationHistory =
      (if t = s.selectedTeacher then s.conversationHistory else []) := by
  simp only [selectTeacherStep]
  try rfl
  repeat' split
  all_goals simp_all

@[simp] theorem endCallStep_conversationHistory (s : State) :
    (endCallStep s).conversationHistory = [] := by
  simp only [endCallStep]
  try rfl
  repeat' split
  all_goals simp_all

@[simp] theorem toggleMuteStep_conversationHistory (s : State) :
    (toggleMuteStep s).conversationHistory = s.conversationHistory := by
  simp only [toggleMuteStep]
  try rfl
  repeat' split
  all_goals simp_all

@[simp] theorem toggleListeningStep_conversationHistory (s : State)
    (lang : SpeechLanguage) :
    (toggleListeningStep s lang).conversationHistory =
      s.conversationHistory := by
  simp only [toggleListeningStep]
  try rfl
  repeat' split
  all_goals simp_all

@[simp] theorem recResultStep_conversationHistory (s : State) (tr : String) :
    (recResultStep s tr).conversationHistory = s.conversationHistory := by
  simp only [recResultStep]
  try rfl
  repeat' split
  all_goals simp_all

@[simp] theorem typeConceptStep_conversationHistory (s : State) (t : String) :
    (typeConceptStep s t).conversationHistory = s.conversationHistory := by
  simp only [typeConceptStep]
  try rfl
  repeat' split
  all_goals simp_all

@[simp] theorem typeProficiencyStep_conversationHistory (s : State)
    (t : String) :
    (typeProficiencyStep s t).conversationHistory = s.conversationHistory := by
  simp only [typeProficiencyStep]
  try rfl
  repeat' split
  all_goals simp_all

@[simp] theorem voicesChangedStep_conversationHistory (s : State) :
    (voicesChangedStep s).conversationHistory = s.conversationHistory := by
  simp only [voicesChangedStep]
  try rfl
  repeat' split
  all_goals simp_all

/-! ## The bounded-history invariant -/

/-- The history is even in length and holds at most 20 entries. -/
def histInv (s : State) : Prop :=
  s.conversationHistory.length % 2 = 0 ∧ s.conversationHistory.length ≤ 20

theorem histInv_initState : histInv initState := by
  constructor <;> simp [initState]

theorem histInv_preserved (s : State) (e : Event) (ih : histInv s) :
    histInv (stepState s e) := by
  obtain ⟨hmod, hle⟩ := ih
  cases e with
  | submit r =>
      simp only [stepState, step, rawStep, submitStep, histInv,
        flush_conversationHistory]
      rcases hsel : s.selectedTeacher with _ | _ <;> simp only [hsel]
      · by_cases hv : ahmedValidData s.ahmedForm
        · simp only [hv, if_pos, handleAhmedSubmit]
          cases r with
          | ok out =>
              simp only [finishAhmedSubmit_conversationHistory_ok,
                commonSubmitLogic_conversationHistory, length_sliceLast,
                List.length_append, List.length_cons, List.length_nil,
                MAX_HISTORY_PAIRS]
              constructor <;> omega
          | error u =>
              simp only [finishAhmedSubmit_conversationHistory_error,
                commonSubmitLogic_conversationHistory]
              exact ⟨hmod, hle⟩
        · simp only [hv, if_neg, if_false]
          exact ⟨hmod, hle⟩
      · by_cases hv : saraValidData s.saraForm
        · simp only [hv, if_pos, handleSaraSubmit]
          cases r with
          | ok out =>
              simp only [finishSaraSubmit_conversationHistory_ok,
                commonSubmitLogic_conversationHistory, length_sliceLast,
                List.length_append, List.length_cons, List.length_nil,
                MAX_HISTORY_PAIRS]
              constructor <;> omega
          | error u =>
              simp only [finishSaraSubmit_conversationHistory_error,
                commonSubmitLogic_conversationHistory]
              exact ⟨hmod, hle⟩
        · simp only [hv, if_neg, if_false]
          exact ⟨hmod, hle⟩
  | selectTeacher t =>
      simp only [stepState, step, rawStep, histInv, flush_conversationHistory,
        selectTeacherStep_conversationHistory]
      split
      · exact ⟨hmod, hle⟩
      · simp
  | endCall =>
      simp only [stepState, step, rawStep, histInv, flush_conversationHistory,
        endCallStep_conversationHistory]
      simp
  | toggleMute =>
      simpa only [stepState, step, rawStep, histInv, flush_conversationHistory,
        toggleMuteStep_conversationHistory] using ⟨hmod, hle⟩
  | toggleListening lang =>
      simpa only [stepState, step, rawStep, histInv, flush_conversationHistory,
        toggleListeningStep_conversationHistory] using ⟨hmod, hle⟩
  | recResult tr =>
      simpa only [stepState, step, rawStep, histInv, flush_conversationHistory,
        recResultStep_conversationHistory] using ⟨hmod, hle⟩
  | recEnd =>
      simpa only [stepState, step, rawStep, histInv, flush_conversationHistory,
        recEndStep] using ⟨hmod, hle⟩
  | recError =>
      simpa only [stepState, step, rawStep, histInv, flush_conversationHistory,
        recErrorStep] using ⟨hmod, hle⟩
  | typeConcept t =>
      simpa only [stepState, step, rawStep, histInv, flush_conversationHistory,
        typeConceptStep_conversationHistory] using ⟨hmod, hle⟩
  | typeProficiency t =>
      simpa only [stepState, step, rawStep, histInv, flush_conversationHistory,
        typeProficiencyStep_conversationHistory] using ⟨hmod, hle⟩
  | playbackEnded =>
      simpa only [stepState, step, rawStep, histInv, flush_conversationHistory,
        playbackEndedStep] using ⟨hmod, hle⟩
  | voicesChanged =>
      simpa only [stepState, step, rawStep, histInv, flush_conversationHistory,
        voicesChangedStep_conversationHistory] using ⟨hmod, hle⟩

theorem histInv_reachable (s : State) (h : Reachable s) : histInv s := by
  induction h with
  | init => exact histInv_initState
  | next s e _ ih => exact histInv_preserved s e ih

/-! ## Per-handler field lemmas -/

@[simp] theorem handleAhmedSubmit_isListening (s : State) (d : AhmedFormData)
    (r : Except Unit VoiceCallOutput) :
    (handleAhmedSubmit s d r).isListening = false := by
  simp [handleAhmedSubmit]

@[simp] theorem handleSaraSubmit_isListening (s : State) (d : SaraFormData)
    (r : Except Unit VoiceCallOutput) :
    (handleSaraSubmit s d r).isListening = false := by
  simp [handleSaraSubmit]

@[simp] theorem selectTeacherStep_isListening (s : State) (t : Teacher) :
    (selectTeacherStep s t).isListening =
      (if t = s.selectedTeacher then s.isListening else false) := by
  simp only [selectTeacherStep]
  try rfl
  repeat' split
  all_goals simp_all

@[simp] theorem selectTeacherStep_playbackActive (s : State) (t : Teacher) :
    (selectTeacherStep s t).playbackActive =
      (if t = s.selectedTeacher then s.playbackActive else false) := by
  simp only [selectTeacherStep]
  try rfl
  repeat' split
  all_goals simp_all

@[simp] theorem selectTeacherStep_callState (s : State) (t : Teacher) :
    (selectTeacherStep s t).callState =
      (if t = s.selectedTeacher then s.callState else CallState.idle) := by
  simp only [selectTeacherStep]
  try rfl
  repeat' split
  all_goals simp_all

@[simp] theorem selectTeacherStep_explanation (s : State) (t : Teacher) :
    (selectTeacherStep s t).explanation =
      (if t = s.selectedTeacher then s.explanation else none) := by
  simp only [selectTeacherStep]
  try rfl
  repeat' split
  all_goals simp_all

@[simp] theorem selectTeacherStep_isMuted (s : State) (t : Teacher) :
    (selectTeacherStep s t).isMuted = s.isMuted := by
  simp only [selectTeacherStep]
  try rfl
  repeat' split
  all_goals simp_all

@[simp] theorem endCallStep_callState (s : State) :
    (endCallStep s).callState = CallState.idle := by
  simp only [endCallStep]
  repeat' split
  all_goals simp_all

@[simp] theorem endCallStep_explanation (s : State) :
    (endCallStep s).explanation = none := by
  simp only [endCallStep]
  repeat' split
  all_goals simp_all

@[simp] theorem endCallStep_isListening (s : State) :
    (endCallStep s).isListening = false := by
  simp only [endCallStep]
  repeat' split
  all_goals simp_all

@[simp] theorem endCallStep_playbackActive (s : State) :
    (endCallStep s).playbackActive = false := by
  simp only [endCallStep]
  repeat' split
  all_goals simp_all

@[simp] theorem endCallStep_isMuted (s : State) :
    (endCallStep s).isMuted = s.isMuted := by
  simp only [endCallStep]
  repeat' split
  all_goals simp_all

@[simp] theorem endCallStep_selectedTeacher (s : State) :
    (endCallStep s).selectedTeacher = s.selectedTeacher := by
  simp only [endCallStep]
  repeat' split
  all_goals simp_all

@[simp] theorem toggleMuteStep_isMuted (s : State) :
    (toggleMuteStep s).isMuted = !s.isMuted := by
  simp only [toggleMuteStep]

@[simp] theorem toggleMuteStep_isListening (s : State) :
    (toggleMuteStep s).isListening = s.isListening := by
  simp only [toggleMuteStep]
  try rfl
  repeat' split
  all_goals simp_all

@[simp] theorem toggleMuteStep_playbackActive (s : State) :
    (toggleMuteStep s).playbackActive =
      (if s.isMuted then s.playbackActive else false) := by
  simp only [toggleMuteStep]
  rcases h : s.isMuted <;> simp [h]

@[simp] theorem toggleMuteStep_callState (s : State) :
    (toggleMuteStep s).callState = s.callState := by
  simp only [toggleMuteStep]
  try rfl
  repeat' split
  all_goals simp_all

@[simp] theorem toggleMuteStep_explanation (s : State) :
    (toggleMuteStep s).explanation = s.explanation := by
  simp only [toggleMuteStep]
  try rfl
  repeat' split
  all_goals simp_all

@[simp] theorem toggleMuteStep_selectedTeacher (s : State) :
    (toggleMuteStep s).selectedTeacher = s.selectedTeacher := by
  simp only [toggleMuteStep]
  try rfl
  repeat' split
  all_goals simp_all

@[simp] theorem toggleListeningStep_isListening (s : State)
    (lang : SpeechLanguage) :
    (toggleListeningStep s lang).isListening = !s.isListening := by
  simp only [toggleListeningStep]
  try rfl
  repeat' split
  all_goals simp_all

@[simp] theorem toggleListeningStep_playbackActive (s : State)
    (lang : SpeechLanguage) :
    (toggleListeningStep s lang).playbackActive =
      (if s.isListening then s.playbackActive else false) := by
  simp only [toggleListeningStep]
  rcases h : s.isListening <;> simp [h]

@[simp] theorem recResultStep_isListening (s : State) (tr : String) :
    (recResultStep s tr).isListening = s.isListening := by
  simp only [recResultStep]
  try rfl
  repeat' split
  all_goals simp_all

@[simp] theorem recResultStep_playbackActive (s : State) (tr : String) :
    (recResultStep s tr).playbackActive = s.playbackActive := by
  simp only [recResultStep]
  try rfl
  repeat' split
  all_goals simp_all

@[simp] theorem typeConceptStep_isListening (s : State) (t : String) :
    (typeConceptStep s t).isListening = s.isListening := by
  simp only [typeConceptStep]
  try rfl
  repeat' split
  all_goals simp_all

@[simp] theorem typeConceptStep_playbackActive (s : State) (t : String) :
    (typeConceptStep s t).playbackActive = s.playbackActive := by
  simp only [typeConceptStep]
  try rfl
  repeat' split
  all_goals simp_all

@[simp] theorem typeProficiencyStep_isListening (s : State) (t : String) :
    (typeProficiencyStep s t).isListening = s.isListening := by
  simp only [typeProficiencyStep]
  try rfl
  repeat' split
  all_goals simp_all

@[simp] theorem typeProficiencyStep_playbackActive (s : State) (t : String) :
    (typeProficiencyStep s t).playbackActive = s.playbackActive := by
  simp only [typeProficiencyStep]
  try rfl
  repeat' split
  all_goals simp_all

/-! ## The deferred-utterance invariant

Capture and playback mutual exclusion does not hold unconditionally: a
loadVoices closure left in synth.onvoiceschanged speaks later without
re-checking isListening.  What is invariant is that whenever capture and
playback are simultaneously active, such a deferred utterance slot is
occupied — the effect itself never initiates playback while listening. -/

@[simp] theorem toggleMuteStep_pendingUtterance (s : State) :
    (toggleMuteStep s).pendingUtterance = s.pendingUtterance := by
  simp only [toggleMuteStep]
  try rfl
  repeat' split
  all_goals simp_all

@[simp] theorem toggleMuteStep_voicesLoaded (s : State) :
    (toggleMuteStep s).voicesLoaded = s.voicesLoaded := by
  simp only [toggleMuteStep]
  try rfl
  repeat' split
  all_goals simp_all

@[simp] theorem recResultStep_pendingUtterance (s : State) (tr : String) :
    (recResultStep s tr).pendingUtterance = s.pendingUtterance := by
  simp only [recResultStep]
  try rfl
  repeat' split
  all_goals simp_all

@[simp] theorem typeConceptStep_pendingUtterance (s : State) (t : String) :
    (typeConceptStep s t).pendingUtterance = s.pendingUtterance := by
  simp only [typeConceptStep]
  try rfl
  repeat' split
  all_goals simp_all

@[simp] theorem typeProficiencyStep_pendingUtterance (s : State) (t : String) :
    (typeProficiencyStep s t).pendingUtterance = s.pendingUtterance := by
  simp only [typeProficiencyStep]
  try rfl
  repeat' split
  all_goals simp_all

/-- When capture and playback are both active, the deferred
onvoiceschanged utterance slot is occupied. -/
def deferInv (s : State) : Prop :=
  s.isListening = true → s.playbackActive = true →
    s.pendingUtterance.isSome = true

theorem deferInv_of_isListening_false (s : State)
    (h : s.isListening = false) : deferInv s := by
  intro h1
  rw [h] at h1
  cases h1

theorem deferInv_of_playbackActive_false (s : State)
    (h : s.playbackActive = false) : deferInv s := by
  intro _ h2
  rw [h] at h2
  cases h2

theorem deferInv_ttsEffect (s : State) : deferInv (ttsEffect s) := by
  simp only [deferInv, ttsEffect, ttsCondition]
  split
  · rename_i h
    simp only [Bool.and_eq_true, Bool.not_eq_true', decide_eq_true_eq] at h
    split
    · intro h1
      simp only [h.2] at h1
      cases h1
    · intro _ h2
      simp at h2
  · intro _ h2
    simp at h2

theorem deferInv_flush (a b : State) (hb : deferInv b) :
    deferInv (flush a b) := by
  simp only [flush]; split
  · exact hb
  · exact deferInv_ttsEffect b

theorem deferInv_initState : deferInv initState := by
  intro h1
  cases h1

theorem deferInv_preserved (s : State) (e : Event) (ih : deferInv s) :
    deferInv (stepState s e) := by
  simp only [stepState, step]
  refine deferInv_flush s _ ?_
  cases e with
  | submit r =>
      simp only [rawStep, submitStep]
      rcases hsel : s.selectedTeacher with _ | _ <;> simp only [hsel]
      · by_cases hv : ahmedValidData s.ahmedForm
        · simp only [hv, if_pos]
          exact deferInv_of_isListening_false _
            (handleAhmedSubmit_isListening s s.ahmedForm r)
        · simpa only [hv, if_neg, if_false] using ih
      · by_cases hv : saraValidData s.saraForm
        · simp only [hv, if_pos]
          exact deferInv_of_isListening_false _
            (handleSaraSubmit_isListening s s.saraForm r)
        · simpa only [hv, if_neg, if_false] using ih
  | selectTeacher t =>
      simp only [rawStep]
      by_cases hsame : t = s.selectedTeacher
      · simpa only [selectTeacherStep, if_pos hsame] using ih
      · refine deferInv_of_isListening_false _ ?_
        rw [selectTeacherStep_isListening, if_neg hsame]
  | endCall =>
      exact deferInv_of_isListening_false _ (endCallStep_isListening s)
  | toggleMute =>
      simp only [rawStep]
      intro h1 h2
      rw [toggleMuteStep_isListening] at h1
      rw [toggleMuteStep_playbackActive] at h2
      rw [toggleMuteStep_pendingUtterance]
      split at h2
      · exact ih h1 h2
      · cases h2
  | toggleListening lang =>
      simp only [rawStep]
      rcases h : s.isListening with _ | _
      · refine deferInv_of_playbackActive_false _ ?_
        rw [toggleListeningStep_playbackActive, if_neg (by simp [h])]
      · refine deferInv_of_isListening_false _ ?_
        rw [toggleListeningStep_isListening, h]
        rfl
  | recResult tr =>
      simp only [rawStep]
      intro h1 h2
      rw [recResultStep_isListening] at h1
      rw [recResultStep_playbackActive] at h2
      rw [recResultStep_pendingUtterance]
      exact ih h1 h2
  | recEnd =>
      exact deferInv_of_isListening_false _ rfl
  | recError =>
      exact deferInv_of_isListening_false _ rfl
  | typeConcept t =>
      simp only [rawStep]
      intro h1 h2
      rw [typeConceptStep_isListening] at h1
      rw [typeConceptStep_playbackActive] at h2
      rw [typeConceptStep_pendingUtterance]
      exact ih h1 h2
  | typeProficiency t =>
      simp only [rawStep]
      intro h1 h2
      rw [typeProficiencyStep_isListening] at h1
      rw [typeProficiencyStep_playbackActive] at h2
      rw [typeProficiencyStep_pendingUtterance]
      exact ih h1 h2
  | playbackEnded =>
      exact deferInv_of_playbackActive_false _ rfl
  | voicesChanged =>
      simp only [rawStep, voicesChangedStep]
      rcases hp : s.pendingUtterance with _ | t
      · simp only [hp]
        intro h1 h2
        have hc := ih h1 h2
        rw [hp] at hc
        exact hc
      · simp only [hp]
        intro _ _
        simp [hp]

theorem deferInv_reachable (s : State) (h : Reachable s) : deferInv s := by
  induction h with
  | init => exact deferInv_initState
  | next s e _ ih => exact deferInv_preserved s e ih

/-! ## Remaining helper lemmas -/

@[simp] theorem finishAhmedSubmit_callState_ok (mid : State)
    (d : AhmedFormData) (r : VoiceCallOutput) :
    (finishAhmedSubmit mid d (Except.ok r)).callState = CallState.active := rfl

@[simp] theorem finishAhmedSubmit_callState_error (mid : State)
    (d : AhmedFormData) (u : Unit) :
    (finishAhmedSubmit mid d (Except.error u)).callState = CallState.error := rfl

@[simp] theorem finishSaraSubmit_callState_ok (mid : State)
    (d : SaraFormData) (r : VoiceCallOutput) :
    (finishSaraSubmit mid d (Except.ok r)).callState = CallState.active := rfl

@[simp] theorem finishSaraSubmit_callState_error (mid : State)
    (d : SaraFormData) (u : Unit) :
    (finishSaraSubmit mid d (Except.error u)).callState = CallState.error := rfl

@[simp] theorem flush_self (s : State) : flush s s = s := by
  simp [flush]

@[simp] theorem endCallStep_ahmedForm (s : State) :
    (endCallStep s).ahmedForm =
      (if s.selectedTeacher = Teacher.Ahmed then
        { englishGrammarConcept := "" } else s.ahmedForm) := by
  simp only [endCallStep]
  try rfl
  repeat' split
  all_goals simp_all

@[simp] theorem endCallStep_saraForm (s : State) :
    (endCallStep s).saraForm =
      (if s.selectedTeacher = Teacher.Sara then
        { englishGrammarConcept := "", userLanguageProficiency := "" }
      else s.saraForm) := by
  simp only [endCallStep]
  try rfl
  repeat' split
  all_goals simp_all

/-! ## The claims -/

/-- C1: in every reachable state the conversation history length is even and
at most 20 entries (10 user/AI pairs), and a successful submission (for
either persona) appends the turn's user entry and AI entry at the end of the
history in oldest-first order, dropping the oldest pair first exactly when
the history already holds 20 entries. -/
theorem C1_history_bounded :
    (∀ s : State, Reachable s →
      s.conversationHistory.length % 2 = 0 ∧
      s.conversationHistory.length ≤ 20) ∧
    (∀ (s : State) (out : VoiceCallOutput),
      s.selectedTeacher = Teacher.Ahmed →
      ahmedValidData s.ahmedForm = true →
      s.conversationHistory.length % 2 = 0 →
      s.conversationHistory.length ≤ 20 →
      (stepState s (Event.submit (Except.ok out))).conversationHistory =
        (if s.conversationHistory.length = 20 then
          s.conversationHistory.drop 2 ++
            [{ speaker := Speaker.User,
               message := s.ahmedForm.englishGrammarConcept },
             { speaker := Speaker.Ahmed, message := out.explanation }]
        else
          s.conversationHistory ++
            [{ speaker := Speaker.User,
               message := s.ahmedForm.englishGrammarConcept },
             { speaker := Speaker.Ahmed, message := out.explanation }])) ∧
    (∀ (s : State) (out : VoiceCallOutput),
      s.selectedTeacher = Teacher.Sara →
      saraValidData s.saraForm = true →
      s.conversationHistory.length % 2 = 0 →
      s.conversationHistory.length ≤ 20 →
      (stepState s (Event.submit (Except.ok out))).conversationHistory =
        (if s.conversationHistory.length = 20 then
          s.conversationHistory.drop 2 ++
            [{ speaker := Speaker.User,
               message := s.saraForm.englishGrammarConcept },
             { speaker := Speaker.Sara, message := out.explanation }]
        else
          s.conversationHistory ++
            [{ speaker := Speaker.User,
               message := s.saraForm.englishGrammarConcept },
             { speaker := Speaker.Sara, message := out.explanation }])) := by
  refine ⟨fun s h => histInv_reachable s h, ?_, ?_⟩
  · intro s out hsel hv hmod hle
    simp only [stepState, step, rawStep, submitStep, hsel, hv, if_pos,
      flush_conversationHistory, handleAhmedSubmit,
      finishAhmedSubmit_conversationHistory_ok,
      commonSubmitLogic_conversationHistory]
    simp only [sliceLast, MAX_HISTORY_PAIRS, List.length_append,
      List.length_cons, List.length_nil, List.drop_append_eq_append_drop]
    by_cases h20 : s.conversationHistory.length = 20
    · rw [if_pos h20, h20]
      norm_num
    · rw [if_neg h20]
      have h18 : s.conversationHistory.length ≤ 18 := by omega
      have hz : s.conversationHistory.length + 2 - 20 = 0 := by omega
      rw [hz]
      simp
  · intro s out hsel hv hmod hle
    simp only [stepState, step, rawStep, submitStep, hsel, hv, if_pos,
      flush_conversationHistory, handleSaraSubmit,
      finishSaraSubmit_conversationHistory_ok,
      commonSubmitLogic_conversationHistory]
    simp only [sliceLast, MAX_HISTORY_PAIRS, List.length_append,
      List.length_cons, List.length_nil, List.drop_append_eq_append_drop]
    by_cases h20 : s.conversationHistory.length = 20
    · rw [if_pos h20, h20]
      norm_num
    · rw [if_neg h20]
      have h18 : s.conversationHistory.length ≤ 18 := by omega
      have hz : s.conversationHistory.length + 2 - 20 = 0 := by omega
      rw [hz]
      simp

/-- Witness for C1 at concrete inputs: the initial state, and a state whose
history already holds 20 entries, where the oldest pair is dropped. -/
theorem C1_history_bounded_witness :
    (initState.conversationHistory.length % 2 = 0 ∧
      initState.conversationHistory.length ≤ 20) ∧
    (stepState
        { initState with
            conversationHistory :=
              List.replicate 20 { speaker := Speaker.User, message := "m" }
            ahmedForm := { englishGrammarConcept := "abc" } }
        (Event.submit (Except.ok { explanation := "ex" }))).conversationHistory =
      List.replicate 18 { speaker := Speaker.User, message := "m" } ++
        [{ speaker := Speaker.User, message := "abc" },
         { speaker := Speaker.Ahmed, message := "ex" }] := by
  constructor
  · exact C1_history_bounded.1 initState Reachable.init
  · have h := C1_history_bounded.2.1
      { initState with
          conversationHistory :=
            List.replicate 20 { speaker := Speaker.User, message := "m" }
          ahmedForm := { englishGrammarConcept := "abc" } }
      { explanation := "ex" } rfl (by decide) (by decide) (by decide)
    rw [h]
    decide

/-- C2: a valid submission made while callState is "idle" or "error" first
moves callState to "calling" (commonSubmitLogic), and the submission resolves
to "active" exactly on gateway success and to "error" exactly on gateway
failure; the whole submission factors through the "calling" intermediate
state, so "active"/"error" is never reached from a submission without passing
through "calling". -/
theorem C2_submit_transitions (s : State) (r : Except Unit VoiceCallOutput)
    (hvalid : currentFormValid s = true)
    (hstart : s.callState = CallState.idle ∨ s.callState = CallState.error) :
    (commonSubmitLogic s).callState = CallState.calling ∧
    (∀ out : VoiceCallOutput, r = Except.ok out →
      (stepState s (Event.submit r)).callState = CallState.active) ∧
    (∀ u : Unit, r = Except.error u →
      (stepState s (Event.submit r)).callState = CallState.error) ∧
    (s.selectedTeacher = Teacher.Ahmed →
      stepState s (Event.submit r) =
        flush s (finishAhmedSubmit (commonSubmitLogic s) s.ahmedForm r)) ∧
    (s.selectedTeacher = Teacher.Sara →
      stepState s (Event.submit r) =
        flush s (finishSaraSubmit (commonSubmitLogic s) s.saraForm r)) := by
  rcases hsel : s.selectedTeacher with _ | _
  all_goals
    simp only [currentFormValid, hsel] at hvalid
  · refine ⟨rfl, ?_, ?_, ?_, ?_⟩
    · rintro out rfl
      simp [stepState, step, rawStep, submitStep, hsel, hvalid,
        handleAhmedSubmit]
    · rintro u rfl
      simp [stepState, step, rawStep, submitStep, hsel, hvalid,
        handleAhmedSubmit]
    · intro _
      simp [stepState, step, rawStep, submitStep, hsel, hvalid,
        handleAhmedSubmit]
    · intro hcontra
      cases hcontra
  · refine ⟨rfl, ?_, ?_, ?_, ?_⟩
    · rintro out rfl
      simp [stepState, step, rawStep, submitStep, hsel, hvalid,
        handleSaraSubmit]
    · rintro u rfl
      simp [stepState, step, rawStep, submitStep, hsel, hvalid,
        handleSaraSubmit]
    · intro hcontra
      cases hcontra
    · intro _
      simp [stepState, step, rawStep, submitStep, hsel, hvalid,
        handleSaraSubmit]

/-- Witness for C2: a valid Ahmed submission from the idle initial state with
a succeeding gateway call. -/
theorem C2_submit_transitions_witness :
    (currentFormValid
        { initState with ahmedForm := { englishGrammarConcept := "abc" } } =
      true) ∧
    ({ initState with
        ahmedForm := { englishGrammarConcept := "abc" } }.callState =
      CallState.idle ∨
     { initState with
        ahmedForm := { englishGrammarConcept := "abc" } }.callState =
      CallState.error) ∧
    (commonSubmitLogic
        { initState with
            ahmedForm := { englishGrammarConcept := "abc" } }).callState =
      CallState.calling ∧
    (stepState { initState with ahmedForm := { englishGrammarConcept := "abc" } }
        (Event.submit (Except.ok { explanation := "ex" }))).callState =
      CallState.active := by
  have h := C2_submit_transitions
    { initState with ahmedForm := { englishGrammarConcept := "abc" } }
    (Except.ok { explanation := "ex" }) (by decide) (Or.inl rfl)
  exact ⟨by decide, Or.inl rfl, h.1, h.2.1 { explanation := "ex" } rfl⟩

/-- C3: when the gateway call of a valid submitted turn fails, callState
becomes "error" and the conversation history is exactly what it was before
the turn was submitted: the failed turn's user and AI entries are never
appended. -/
theorem C3_failure_leaves_history (s : State) (u : Unit)
    (hvalid : currentFormValid s = true) :
    (stepState s (Event.submit (Except.error u))).callState =
      CallState.error ∧
    (stepState s (Event.submit (Except.error u))).conversationHistory =
      s.conversationHistory := by
  rcases hsel : s.selectedTeacher with _ | _ <;>
    simp only [currentFormValid, hsel] at hvalid <;>
    simp [stepState, step, rawStep, submitStep, hsel, hvalid,
      handleAhmedSubmit, handleSaraSubmit]

/-- Witness for C3: a failing gateway call on a valid Ahmed submission from
the initial state with one pair of history. -/
theorem C3_failure_leaves_history_witness :
    (currentFormValid
        { initState with
            ahmedForm := { englishGrammarConcept := "abc" }
            conversationHistory :=
              [{ speaker := Speaker.User, message := "q" },
               { speaker := Speaker.Ahmed, message := "a" }] } = true) ∧
    (stepState
        { initState with
            ahmedForm := { englishGrammarConcept := "abc" }
            conversationHistory :=
              [{ speaker := Speaker.User, message := "q" },
               { speaker := Speaker.Ahmed, message := "a" }] }
        (Event.submit (Except.error ()))).callState = CallState.error ∧
    (stepState
        { initState with
            ahmedForm := { englishGrammarConcept := "abc" }
            conversationHistory :=
              [{ speaker := Speaker.User, message := "q" },
               { speaker := Speaker.Ahmed, message := "a" }] }
        (Event.submit (Except.error ()))).conversationHistory =
      [{ speaker := Speaker.User, message := "q" },
       { speaker := Speaker.Ahmed, message := "a" }] := by
  have h := C3_failure_leaves_history
    { initState with
        ahmedForm := { englishGrammarConcept := "abc" }
        conversationHistory :=
          [{ speaker := Speaker.User, message := "q" },
           { speaker := Speaker.Ahmed, message := "a" }] }
    () (by decide)
  exact ⟨by decide, h.1, h.2⟩

/-- C4: a submission whose concept field is shorter than 3 characters, or
(for Sara) whose proficiency field is shorter than 2 characters, fails the
local zod validation: the submit handler is never called, so the gateway is
not invoked and the entire state (callState, explanation, history included)
is unchanged. -/
theorem C4_invalid_submission_rejected (s : State)
    (r : Except Unit VoiceCallOutput) :
    (s.selectedTeacher = Teacher.Ahmed →
      s.ahmedForm.englishGrammarConcept.length < 3 →
      step s (Event.submit r) = (s, none)) ∧
    (s.selectedTeacher = Teacher.Sara →
      (s.saraForm.englishGrammarConcept.length < 3 ∨
        s.saraForm.userLanguageProficiency.length < 2) →
      step s (Event.submit r) = (s, none)) := by
  constructor
  · intro hsel hshort
    have hv : ahmedValidData s.ahmedForm = false := by
      rw [Bool.eq_false_iff]
      intro hcontra
      simp only [ahmedValidData, decide_eq_true_eq] at hcontra
      omega
    simp [step, rawStep, submitStep, hsel, hv]
  · intro hsel hshort
    have hv : saraValidData s.saraForm = false := by
      rw [Bool.eq_false_iff]
      intro hcontra
      simp only [saraValidData, Bool.and_eq_true, decide_eq_true_eq]
        at hcontra
      omega
    simp [step, rawStep, submitStep, hsel, hv]

/-- Witness for C4: submitting the two-character concept "ab" in the initial
state invokes no gateway and changes nothing. -/
theorem C4_invalid_submission_rejected_witness :
    ({ initState with
        ahmedForm := { englishGrammarConcept := "ab" } }.selectedTeacher =
      Teacher.Ahmed) ∧
    ({ initState with
        ahmedForm :=
          { englishGrammarConcept :=
              "ab" } }.ahmedForm.englishGrammarConcept.length < 3) ∧
    step { initState with ahmedForm := { englishGrammarConcept := "ab" } }
        (Event.submit (Except.ok { explanation := "ex" })) =
      ({ initState with ahmedForm := { englishGrammarConcept := "ab" } },
        none) := by
  refine ⟨rfl, by decide, ?_⟩
  exact (C4_invalid_submission_rejected
    { initState with ahmedForm := { englishGrammarConcept := "ab" } }
    (Except.ok { explanation := "ex" })).1 rfl (by decide)

/-- C5: every valid submission invokes the gateway with the conversation
history exactly as it stood before the turn, in oldest-first order; in the
concrete two-turn scenario, the first Ahmed submission sends an empty
history, success makes the history the user/Ahmed pair, and the second
submission sends exactly that two-entry history. -/
theorem C5_gateway_receives_prior_history :
    (∀ (s : State) (r : Except Unit VoiceCallOutput),
      s.selectedTeacher = Teacher.Ahmed →
      ahmedValidData s.ahmedForm = true →
      (step s (Event.submit r)).2 =
        some (GatewayCall.ahmed (ahmedGatewayInput s))) ∧
    (∀ (s : State) (r : Except Unit VoiceCallOutput),
      s.selectedTeacher = Teacher.Sara →
      saraValidData s.saraForm = true →
      (step s (Event.submit r)).2 =
        some (GatewayCall.sara (saraGatewayInput s))) ∧
    ((step (stepState initState (Event.typeConcept "Present Perfect"))
        (Event.submit (Except.ok { explanation := "ex1" }))).2 =
      some (GatewayCall.ahmed
        { englishGrammarConcept := "Present Perfect"
          conversationHistory := [] }) ∧
     (stepState (stepState initState (Event.typeConcept "Present Perfect"))
        (Event.submit (Except.ok { explanation := "ex1" }))).conversationHistory =
      [{ speaker := Speaker.User, message := "Present Perfect" },
       { speaker := Speaker.Ahmed, message := "ex1" }] ∧
     (step
        (stepState
          (stepState (stepState initState (Event.typeConcept "Present Perfect"))
            (Event.submit (Except.ok { explanation := "ex1" })))
          (Event.typeConcept "negative form"))
        (Event.submit (Except.ok { explanation := "ex2" }))).2 =
      some (GatewayCall.ahmed
        { englishGrammarConcept := "negative form"
          conversationHistory :=
            [{ speaker := Speaker.User, message := "Present Perfect" },
             { speaker := Speaker.Ahmed, message := "ex1" }] })) := by
  refine ⟨?_, ?_, by decide, by decide, by decide⟩
  · intro s r hsel hv
    simp [step, rawStep, submitStep, hsel, hv]
  · intro s r hsel hv
    simp [step, rawStep, submitStep, hsel, hv]

/-- Witness for C5: the general part applied to a concrete valid state. -/
theorem C5_gateway_receives_prior_history_witness :
    ({ initState with
        ahmedForm := { englishGrammarConcept := "abc" } }.selectedTeacher =
      Teacher.Ahmed) ∧
    (ahmedValidData
        { initState with
            ahmedForm := { englishGrammarConcept := "abc" } }.ahmedForm =
      true) ∧
    (step { initState with ahmedForm := { englishGrammarConcept := "abc" } }
        (Event.submit (Except.error ()))).2 =
      some (GatewayCall.ahmed
        { englishGrammarConcept := "abc", conversationHistory := [] }) := by
  refine ⟨rfl, by decide, ?_⟩
  have h := C5_gateway_receives_prior_history.1
    { initState with ahmedForm := { englishGrammarConcept := "abc" } }
    (Except.error ()) rfl (by decide)
  simpa [ahmedGatewayInput] using h

@[simp] theorem ttsEffect_playbackActive (s : State) :
    (ttsEffect s).playbackActive = (ttsCondition s && s.voicesLoaded) := by
  simp only [ttsEffect]
  repeat' split
  all_goals simp_all

/-- C6: after a persona switch (to a different persona) and after endCall,
callState is "idle", the explanation is cleared and the conversation history
is empty. -/
theorem C6_switch_and_end_reset (s : State) (t : Teacher)
    (h : t ≠ s.selectedTeacher) :
    ((stepState s (Event.selectTeacher t)).callState = CallState.idle ∧
     (stepState s (Event.selectTeacher t)).explanation = none ∧
     (stepState s (Event.selectTeacher t)).conversationHistory = []) ∧
    ((stepState s Event.endCall).callState = CallState.idle ∧
     (stepState s Event.endCall).explanation = none ∧
     (stepState s Event.endCall).conversationHistory = []) := by
  refine ⟨⟨?_, ?_, ?_⟩, ⟨?_, ?_, ?_⟩⟩ <;>
    simp [stepState, step, rawStep, h]

/-- Witness for C6: switching from Ahmed to Sara in the initial state. -/
theorem C6_switch_and_end_reset_witness :
    (Teacher.Sara ≠ initState.selectedTeacher) ∧
    (stepState initState (Event.selectTeacher Teacher.Sara)).callState =
      CallState.idle ∧
    (stepState initState Event.endCall).conversationHistory = [] := by
  have h := C6_switch_and_end_reset initState Teacher.Sara (by decide)
  exact ⟨by decide, h.1.1, h.2.2.2⟩

/-- C7 as stated is false: unmuting while an explanation is displayed
restarts its playback at once.  With the voice list loaded, after a
successful turn (playback active), muting cancels playback, but the second
toggleMute — with no new turn in between (the history is unchanged) — makes
playback of the same explanation active again. -/
theorem C7_unmute_replay_counterexample :
    (let s0 := stepState initState Event.voicesChanged
     let s1 := stepState s0 (Event.typeConcept "abc")
     let s2 := stepState s1 (Event.submit (Except.ok { explanation := "text" }))
     let s3 := stepState s2 Event.toggleMute
     let s4 := stepState s3 Event.toggleMute
     s2.playbackActive = true ∧
       s3.isMuted = true ∧ s3.playbackActive = false ∧
       s4.isMuted = false ∧ s4.playbackActive = true ∧
       s4.explanation = some "text" ∧
       s4.conversationHistory = s3.conversationHistory) := by decide

/-- C7 amended: toggleMute flips isMuted; a flip to muted cancels active
playback immediately.  A flip to unmuted re-runs the text-to-speech effect
(isMuted is in its dependency array): when callState is "active", the
explanation is a non-empty string and capture is not listening, the current
explanation is spoken again at once if the voice list is loaded, and is
otherwise registered in the onvoiceschanged slot to be spoken when the
voices load; in every other case no playback starts. -/
theorem C7_toggleMute_amended (s : State) :
    ((stepState s Event.toggleMute).isMuted = !s.isMuted) ∧
    (s.isMuted = false →
      (stepState s Event.toggleMute).playbackActive = false) ∧
    (s.isMuted = true →
      (stepState s Event.toggleMute).playbackActive =
        (decide (s.callState = CallState.active) &&
          truthyExplanation s.explanation && !s.isListening &&
          s.voicesLoaded)) ∧
    (s.isMuted = true →
      (decide (s.callState = CallState.active) &&
        truthyExplanation s.explanation && !s.isListening) = true →
      s.voicesLoaded = false →
      (stepState s Event.toggleMute).pendingUtterance = s.explanation) := by
  have hdep : ttsDeps (toggleMuteStep s) ≠ ttsDeps s := by
    intro hcontra
    have h3 := congrArg (fun p => p.2.2.1) hcontra
    simp only [ttsDeps, toggleMuteStep_isMuted] at h3
    rcases hb : s.isMuted <;> rw [hb] at h3 <;> cases h3
  have hstep : stepState s Event.toggleMute = ttsEffect (toggleMuteStep s) := by
    simp only [stepState, step, rawStep, flush]
    rw [if_neg hdep]
  refine ⟨?_, ?_, ?_, ?_⟩
  · rw [hstep]; simp
  · intro hm
    rw [hstep]
    simp [ttsCondition, hm]
  · intro hm
    rw [hstep]
    simp [ttsCondition, hm, Bool.and_assoc]
  · intro hm hcond hvl
    have hc2 : ttsCondition (toggleMuteStep s) = true := by
      simp only [ttsCondition, toggleMuteStep_callState,
        toggleMuteStep_explanation, toggleMuteStep_isMuted,
        toggleMuteStep_isListening, hm, Bool.not_true, Bool.not_false,
        Bool.and_true]
      simpa using hcond
    rw [hstep, ttsEffect_pendingUtterance,
      if_pos ⟨hc2, by rw [toggleMuteStep_voicesLoaded]; exact hvl⟩,
      toggleMuteStep_explanation]

/-- Witness for C7 amended at concrete inputs: unmuting in an active state
with a non-empty explanation restarts playback when the voices are loaded,
and registers the deferred utterance when they are not. -/
theorem C7_toggleMute_amended_witness :
    ((stepState
        { initState with
            callState := CallState.active
            explanation := some "text"
            isMuted := true
            voicesLoaded := true } Event.toggleMute).isMuted = false ∧
     (stepState
        { initState with
            callState := CallState.active
            explanation := some "text"
            isMuted := true
            voicesLoaded := true } Event.toggleMute).playbackActive = true) ∧
    (stepState
        { initState with
            callState := CallState.active
            explanation := some "text"
            isMuted := true } Event.toggleMute).pendingUtterance =
      some "text" := by
  have h1 := C7_toggleMute_amended
    { initState with
        callState := CallState.active
        explanation := some "text"
        isMuted := true
        voicesLoaded := true }
  have h2 := C7_toggleMute_amended
    { initState with
        callState := CallState.active
        explanation := some "text"
        isMuted := true }
  refine ⟨⟨by simpa using h1.1, ?_⟩, ?_⟩
  · have hp := h1.2.2.1 rfl
    rw [hp]
    decide
  · have hp := h2.2.2.2 rfl (by decide) rfl
    rw [hp]

/-- C8 as stated is false of the program: the effect run for a successful
turn while getVoices() is still empty defers synth.speak into the
onvoiceschanged slot; the user then starts capture (which cancels nothing —
the engine is not speaking — and clears no slot); when the voices load the
slot fires and speaks unconditionally, so playback starts while isListening
is true, in a reachable state. -/
theorem C8_exclusion_counterexample :
    Reachable
      (stepState
        (stepState
          (stepState (stepState initState (Event.typeConcept "abc"))
            (Event.submit (Except.ok { explanation := "text" })))
          (Event.toggleListening SpeechLanguage.enUS))
        Event.voicesChanged) ∧
    (stepState
        (stepState
          (stepState (stepState initState (Event.typeConcept "abc"))
            (Event.submit (Except.ok { explanation := "text" })))
          (Event.toggleListening SpeechLanguage.enUS))
        Event.voicesChanged).isListening = true ∧
    (stepState
        (stepState
          (stepState (stepState initState (Event.typeConcept "abc"))
            (Event.submit (Except.ok { explanation := "text" })))
          (Event.toggleListening SpeechLanguage.enUS))
        Event.voicesChanged).playbackActive = true := by
  refine ⟨?_, by decide, by decide⟩
  exact Reachable.next _ _ (Reachable.next _ _ (Reachable.next _ _
    (Reachable.next _ _ Reachable.init)))

/-- C8 amended: capture and playback can be simultaneously active only
through the deferred onvoiceschanged path — in every reachable state where
both are active the deferred utterance slot is occupied; the text-to-speech
effect itself never initiates playback while isListening is true; and
starting capture (toggleListening from a non-listening state) ends with
capture on and playback cancelled. -/
theorem C8_capture_playback_exclusion_amended :
    (∀ s : State, Reachable s → s.isListening = true →
      s.playbackActive = true → s.pendingUtterance.isSome = true) ∧
    (∀ s : State, s.isListening = true →
      (ttsEffect s).playbackActive = false) ∧
    (∀ (s : State) (lang : SpeechLanguage), s.isListening = false →
      (stepState s (Event.toggleListening lang)).isListening = true ∧
      (stepState s (Event.toggleListening lang)).playbackActive = false) := by
  refine ⟨fun s h => deferInv_reachable s h, ?_, ?_⟩
  · intro s hl
    rw [ttsEffect_playbackActive]
    simp [ttsCondition, hl]
  · intro s lang hl
    constructor
    · simp [stepState, step, rawStep, hl]
    · simp only [stepState, step, rawStep, flush]
      split
      · simp [hl]
      · rw [ttsEffect_playbackActive]
        simp [ttsCondition, hl]

/-- Witness for C8 amended: the deferred-slot conclusion at the concrete
reachable state of the counterexample trace, and capture start from the
initial state. -/
theorem C8_capture_playback_exclusion_amended_witness :
    ((stepState
        (stepState
          (stepState (stepState initState (Event.typeConcept "abc"))
            (Event.submit (Except.ok { explanation := "text" })))
          (Event.toggleListening SpeechLanguage.enUS))
        Event.voicesChanged).isListening = true ∧
     (stepState
        (stepState
          (stepState (stepState initState (Event.typeConcept "abc"))
            (Event.submit (Except.ok { explanation := "text" })))
          (Event.toggleListening SpeechLanguage.enUS))
        Event.voicesChanged).playbackActive = true ∧
     (stepState
        (stepState
          (stepState (stepState initState (Event.typeConcept "abc"))
            (Event.submit (Except.ok { explanation := "text" })))
          (Event.toggleListening SpeechLanguage.enUS))
        Event.voicesChanged).pendingUtterance.isSome = true) ∧
    (initState.isListening = false ∧
     (stepState initState
        (Event.toggleListening SpeechLanguage.enUS)).isListening = true ∧
     (stepState initState
        (Event.toggleListening SpeechLanguage.enUS)).playbackActive =
       false) := by
  constructor
  · refine ⟨by decide, by decide, ?_⟩
    exact C8_capture_playback_exclusion_amended.1 _
      (Reachable.next _ _ (Reachable.next _ _ (Reachable.next _ _
        (Reachable.next _ _ Reachable.init))))
      (by decide) (by decide)
  · have h := C8_capture_playback_exclusion_amended.2.2 initState
      SpeechLanguage.enUS rfl
    exact ⟨rfl, h.1, h.2⟩

/-- C9: neither a persona switch nor endCall touches isMuted: a muted
session stays muted across persona changes and session ends. -/
theorem C9_mute_survives_reset (s : State) (t : Teacher) :
    (stepState s (Event.selectTeacher t)).isMuted = s.isMuted ∧
    (stepState s Event.endCall).isMuted = s.isMuted := by
  constructor <;> simp [stepState, step, rawStep]

/-- C10: endCall resets the active persona's form to its default values,
discarding any unsubmitted text, and leaves the other persona's form
untouched. -/
theorem C10_endCall_resets_active_form (s : State) :
    (stepState s Event.endCall).ahmedForm =
      (if s.selectedTeacher = Teacher.Ahmed then
        { englishGrammarConcept := "" } else s.ahmedForm) ∧
    (stepState s Event.endCall).saraForm =
      (if s.selectedTeacher = Teacher.Sara then
        { englishGrammarConcept := "", userLanguageProficiency := "" }
      else s.saraForm) := by
  constructor <;> simp [stepState, step, rawStep]
